import Mathlib

/-!
Verification of the health-scoring and aggregation engine of the AWS ECS
monitoring scripts (`monitoring/monitor.py` and `advanced/phase7-manager.py`).

Shallow embedding conventions:
* Python `int` values (task counts, error counts, health scores) become `Int`.
* Python `float` values (CPU/memory utilization percentages, averages) become
  `Rat`; every operation performed on them in the source (comparison against
  integer thresholds, summation, division by a count, `round(x, 2)`) is exact
  on rationals, so no floating-point subtlety is exercised by any claim.
* `round(x, 2)` is modelled by `round2` below.  Python's `round` uses
  round-half-to-even while `round2` rounds half-ties upward; the two differ
  only at exact half-ties of the second decimal, which no claim or concrete
  input in this development exercises.
* External AWS calls are modelled by an environment record of functions
  returning `Except String α`: `.error` is the call raising an exception,
  `.ok` is a successful response (for `describe_services`, the list under the
  `services` key; for CloudWatch, the `Datapoints` list).
-/

/-- `round(x, 2)` from Python: round to two decimal places, here as
`⌊100x + 1/2⌋ / 100`. -/
def round2 (x : Rat) : Rat := (((x * 100 + 1 / 2).floor : Int) : Rat) / 100

namespace Monitor

/-- The `ServiceHealth` dataclass of `monitoring/monitor.py`. -/
structure ServiceHealth where
  service_name : String
  status : String
  running_tasks : Int
  desired_tasks : Int
  cpu_utilization : Rat
  memory_utilization : Rat
  health_score : Int
  last_deployment : String
  errors_count : Int
deriving DecidableEq, Repr

/-- One element of the `services` list returned by `ecs.describe_services`:
the fields of a service description that `get_service_health` reads
(`status`, `runningCount`, `desiredCount`, and the `createdAt.isoformat()`
strings of its `deployments`). -/
structure ServiceInfo where
  status : String
  runningCount : Int
  desiredCount : Int
  deployments : List String
deriving DecidableEq, Repr

/-- Environment of external AWS responses consumed by `AWSMonitor`.
`cpu_datapoints`/`memory_datapoints` hold the `Average` statistic of each
CloudWatch datapoint (the only statistic the monitor requests);
`error_events` is the number of matching log events. -/
structure Env where
  describe_services : String → Except String (List ServiceInfo)
  cpu_datapoints : String → Except String (List Rat)
  memory_datapoints : String → Except String (List Rat)
  error_events : String → Except String Int

/-- The fixed service list from `AWSMonitor.__init__`. -/
def services : List String :=
  ["api-gateway", "user-service", "product-service", "order-service",
   "notification-service"]

/-- `AWSMonitor.calculate_health_score` (monitor.py lines 243–275):
start at 100, subtract 30 for a non-ACTIVE status, 20 × deficit when
running < desired, two-tier CPU and memory penalties, three-tier error
penalty, floor at 0. -/
def calculate_health_score (status : String) (running desired : Int)
    (cpu memory : Rat) (errors : Int) : Int :=
  let score : Int := 100
  -- if status != 'ACTIVE': score -= 30
  let score := score - (if status ≠ "ACTIVE" then 30 else 0)
  -- if running < desired: score -= 20 * (desired - running)
  let score := score - (if running < desired then 20 * (desired - running) else 0)
  -- if cpu > 80: score -= 15  /  elif cpu > 60: score -= 5
  let score := score - (if cpu > 80 then 15 else if cpu > 60 then 5 else 0)
  -- if memory > 80: score -= 15  /  elif memory > 60: score -= 5
  let score := score - (if memory > 80 then 15 else if memory > 60 then 5 else 0)
  -- if errors > 10: score -= 20  /  elif errors > 5: score -= 10  /  elif errors > 0: score -= 5
  let score := score -
    (if errors > 10 then 20 else if errors > 5 then 10 else if errors > 0 then 5 else 0)
  max 0 score

/-- `AWSMonitor.get_service_cpu_utilization`: on success with a nonempty
`Datapoints` list, `round(Datapoints[-1]['Average'], 2)`; otherwise 0.0. -/
def get_service_cpu_utilization (env : Env) (service_name : String) : Rat :=
  match env.cpu_datapoints service_name with
  | .error _ => 0
  | .ok dps =>
    match dps.getLast? with
    | some v => round2 v
    | none => 0

/-- `AWSMonitor.get_service_memory_utilization`: same shape as the CPU
variant, over the `MemoryUtilization` metric. -/
def get_service_memory_utilization (env : Env) (service_name : String) : Rat :=
  match env.memory_datapoints service_name with
  | .error _ => 0
  | .ok dps =>
    match dps.getLast? with
    | some v => round2 v
    | none => 0

/-- `AWSMonitor.get_service_error_count`: the number of filtered log events,
or 0 when the log API call raises. -/
def get_service_error_count (env : Env) (service_name : String) : Int :=
  match env.error_events service_name with
  | .error _ => 0
  | .ok n => n

/-- `AWSMonitor.get_service_health` (monitor.py lines 102–167): an empty
`services` response yields the NOT_FOUND record, an exception yields the
ERROR record, otherwise the signals are fetched and scored. -/
def get_service_health (env : Env) (service_name : String) : ServiceHealth :=
  match env.describe_services service_name with
  | .error _ =>
    { service_name := service_name, status := "ERROR", running_tasks := 0,
      desired_tasks := 0, cpu_utilization := 0, memory_utilization := 0,
      health_score := 0, last_deployment := "Error", errors_count := 999 }
  | .ok [] =>
    { service_name := service_name, status := "NOT_FOUND", running_tasks := 0,
      desired_tasks := 0, cpu_utilization := 0, memory_utilization := 0,
      health_score := 0, last_deployment := "Never", errors_count := 0 }
  | .ok (service :: _) =>
    let cpu_util := get_service_cpu_utilization env service_name
    let memory_util := get_service_memory_utilization env service_name
    let error_count := get_service_error_count env service_name
    let health_score := calculate_health_score service.status
      service.runningCount service.desiredCount cpu_util memory_util error_count
    { service_name := service_name, status := service.status,
      running_tasks := service.runningCount,
      desired_tasks := service.desiredCount,
      cpu_utilization := cpu_util, memory_utilization := memory_util,
      health_score := health_score,
      last_deployment :=
        match service.deployments with
        | d :: _ => d
        | [] => "Never",
      errors_count := error_count }

/-- The `summary` dict of `AWSMonitor.generate_report`. -/
structure Summary where
  total_services : Nat
  healthy_services : Nat
  warning_services : Nat
  critical_services : Nat
deriving DecidableEq, Repr

/-- The fields of the report dict of `AWSMonitor.generate_report` that carry
scoring/aggregation content (timestamp/identifiers/cluster/infrastructure
fields are pass-through data not touched by any claim). -/
structure Report where
  services_health : List ServiceHealth
  overall_health_score : Rat
  summary : Summary
deriving DecidableEq, Repr

/-- `AWSMonitor.generate_report` (monitor.py lines 381–415): one
`ServiceHealth` per configured service, overall score = mean of the
per-service scores rounded to 2 decimals, and band counts by the fixed
thresholds (≥80 healthy, 60–79 warning, <60 critical). -/
def generate_report (env : Env) : Report :=
  let services_health := services.map (fun service => get_service_health env service)
  let overall_score : Rat :=
    ((services_health.map (fun s => (s.health_score : Rat))).sum) /
      (services_health.length : Rat)
  { services_health := services_health
    overall_health_score := round2 overall_score
    summary :=
      { total_services := services.length
        healthy_services :=
          (services_health.filter (fun s => decide (s.health_score ≥ 80))).length
        warning_services :=
          (services_health.filter
            (fun s => decide (60 ≤ s.health_score ∧ s.health_score < 80))).length
        critical_services :=
          (services_health.filter (fun s => decide (s.health_score < 60))).length } }

end Monitor

namespace Phase7

/-- The `performance_thresholds` dict of `Phase7Manager.__init__`. -/
structure PerformanceThresholds where
  cpu_warning : Rat
  cpu_critical : Rat
  memory_warning : Rat
  memory_critical : Rat
  response_time_warning : Rat
  response_time_critical : Rat
  error_rate_warning : Rat
  error_rate_critical : Rat
deriving DecidableEq, Repr

/-- `Phase7Manager.performance_thresholds` as set in `__init__`. -/
def performance_thresholds : PerformanceThresholds :=
  { cpu_warning := 70, cpu_critical := 85, memory_warning := 70,
    memory_critical := 85, response_time_warning := 1,
    response_time_critical := 2, error_rate_warning := 1,
    error_rate_critical := 5 }

/-- The `metrics` dict built by `Phase7Manager.get_service_metrics`;
field names follow its keys (`service` is the `service` key). -/
structure Metrics where
  service : String
  status : String
  cpu_avg : Rat
  cpu_max : Rat
  memory_avg : Rat
  memory_max : Rat
  task_count : Int
  running_tasks : Int
  desired_tasks : Int
  response_time : Rat
  error_rate : Rat
  health_score : Int
deriving DecidableEq, Repr

/-- One CloudWatch datapoint as requested by `get_service_metrics`
with `Statistics=['Average', 'Maximum']`. -/
structure Datapoint where
  Average : Rat
  Maximum : Rat
deriving DecidableEq, Repr

/-- Environment of external AWS responses consumed by `Phase7Manager`. -/
structure P7Env where
  describe_services : String → Except String (List Monitor.ServiceInfo)
  cpu_statistics : String → Except String (List Datapoint)
  memory_statistics : String → Except String (List Datapoint)

/-- Python `max(...)` over a list of comparable values; only applied to
nonempty lists in the source (guarded by `if response['Datapoints']`). -/
def pyMax : List Rat → Rat
  | [] => 0
  | x :: xs => xs.foldl max x

/-- The fixed service list from `Phase7Manager.__init__`. -/
def services : List String :=
  ["api-gateway", "user-service", "product-service", "order-service",
   "notification-service"]

/-- `Phase7Manager.project_name` default. -/
def project_name : String := "django-microservices"

/-- `Phase7Manager.cluster_name` as set in `__init__`. -/
def cluster_name : String := project_name ++ "-cluster"

/-- `Phase7Manager.calculate_health_score` (phase7-manager.py lines
160–184): two-tier CPU and memory penalties against the configured
thresholds (30 above critical, 15 above warning), a flat 20 when
running < desired, 40 for a non-ACTIVE status, floor at 0. -/
def calculate_health_score (metrics : Metrics) : Int :=
  let score : Int := 100
  -- if cpu_avg > cpu_critical: score -= 30  /  elif cpu_avg > cpu_warning: score -= 15
  let score := score -
    (if metrics.cpu_avg > performance_thresholds.cpu_critical then 30
     else if metrics.cpu_avg > performance_thresholds.cpu_warning then 15
     else 0)
  -- if memory_avg > memory_critical: score -= 30  /  elif memory_avg > memory_warning: score -= 15
  let score := score -
    (if metrics.memory_avg > performance_thresholds.memory_critical then 30
     else if metrics.memory_avg > performance_thresholds.memory_warning then 15
     else 0)
  -- if running_tasks < desired_tasks: score -= 20
  let score := score - (if metrics.running_tasks < metrics.desired_tasks then 20 else 0)
  -- if status != 'ACTIVE': score -= 40
  let score := score - (if metrics.status ≠ "ACTIVE" then 40 else 0)
  max 0 score

/-- `Phase7Manager.get_service_metrics` (phase7-manager.py lines 82–158):
the defaults dict, then the try-block steps in order; an exception at any
step leaves every later field at the value it had when the exception was
raised (in particular `health_score` stays 0, since it is assigned last). -/
def get_service_metrics (env : P7Env) (service_name : String) : Metrics :=
  let metrics : Metrics :=
    { service := service_name, status := "Unknown", cpu_avg := 0, cpu_max := 0,
      memory_avg := 0, memory_max := 0, task_count := 0, running_tasks := 0,
      desired_tasks := 0, response_time := 0, error_rate := 0, health_score := 0 }
  match env.describe_services service_name with
  | .error _ => metrics
  | .ok svcs =>
    let metrics :=
      match svcs with
      | [] => metrics
      | service_info :: _ =>
        { metrics with status := service_info.status,
                       running_tasks := service_info.runningCount,
                       desired_tasks := service_info.desiredCount,
                       task_count := service_info.runningCount }
    match env.cpu_statistics service_name with
    | .error _ => metrics
    | .ok cpu_dps =>
      let metrics :=
        if cpu_dps.isEmpty then metrics
        else
          { metrics with
              cpu_avg := round2 ((cpu_dps.map Datapoint.Average).sum / (cpu_dps.length : Rat)),
              cpu_max := round2 (pyMax (cpu_dps.map Datapoint.Maximum)) }
      match env.memory_statistics service_name with
      | .error _ => metrics
      | .ok memory_dps =>
        let metrics :=
          if memory_dps.isEmpty then metrics
          else
            { metrics with
                memory_avg := round2 ((memory_dps.map Datapoint.Average).sum / (memory_dps.length : Rat)),
                memory_max := round2 (pyMax (memory_dps.map Datapoint.Maximum)) }
        { metrics with health_score := calculate_health_score metrics }

/-- The health colour bands of `Phase7Manager.real_time_dashboard`
(lines 337–342): green for score ≥ 80, yellow for score ≥ 60, red below. -/
inductive HealthColor where
  | green
  | yellow
  | red
deriving DecidableEq, Repr

/-- The colour-coding conditional of `real_time_dashboard`. -/
def dashboard_health_color (health_score : Int) : HealthColor :=
  if health_score ≥ 80 then .green
  else if health_score ≥ 60 then .yellow
  else .red

/-- The `register_scalable_target` request issued by
`update_scaling_targets`, with its service-specific arguments. -/
structure RegisterScalableTargetCall where
  ResourceId : String
  MinCapacity : Int
  MaxCapacity : Int
deriving DecidableEq, Repr

/-- `Phase7Manager.update_scaling_targets` (phase7-manager.py lines
255–289), after the two integer inputs have been read: returns the
autoscaling API call it issues, or `none` when it returns early (unknown
service name, or `min_capacity >= max_capacity`). -/
def update_scaling_targets (service : String) (min_capacity max_capacity : Int) :
    Option RegisterScalableTargetCall :=
  if service ∉ services then none
  else if min_capacity ≥ max_capacity then none
  else
    some { ResourceId := "service/" ++ cluster_name ++ "/" ++ project_name ++ "-" ++ service,
           MinCapacity := min_capacity, MaxCapacity := max_capacity }

end Phase7

namespace Monitor

/-- The status penalty term of `AWSMonitor.calculate_health_score`. -/
def statusPen (status : String) : Int := if status ≠ "ACTIVE" then 30 else 0

/-- The task-deficit penalty term of `AWSMonitor.calculate_health_score`. -/
def deficitPen (running desired : Int) : Int :=
  if running < desired then 20 * (desired - running) else 0

/-- The CPU penalty term of `AWSMonitor.calculate_health_score`. -/
def cpuPen (cpu : Rat) : Int := if cpu > 80 then 15 else if cpu > 60 then 5 else 0

/-- The memory penalty term of `AWSMonitor.calculate_health_score`. -/
def memPen (memory : Rat) : Int :=
  if memory > 80 then 15 else if memory > 60 then 5 else 0

/-- The error-count penalty term of `AWSMonitor.calculate_health_score`. -/
def errPen (errors : Int) : Int :=
  if errors > 10 then 20 else if errors > 5 then 10 else if errors > 0 then 5 else 0

set_option maxHeartbeats 1600000 in
lemma calculate_health_score_decomp (status : String) (running desired : Int)
    (cpu memory : Rat) (errors : Int) :
    calculate_health_score status running desired cpu memory errors =
      max 0 (100 - statusPen status - deficitPen running desired - cpuPen cpu -
        memPen memory - errPen errors) := by
  simp only [calculate_health_score, statusPen, deficitPen, cpuPen, memPen, errPen]

lemma statusPen_nonneg (status : String) : 0 ≤ statusPen status := by
  unfold statusPen; split_ifs <;> omega

lemma deficitPen_nonneg (running desired : Int) : 0 ≤ deficitPen running desired := by
  unfold deficitPen; split_ifs <;> omega

lemma cpuPen_nonneg (cpu : Rat) : 0 ≤ cpuPen cpu := by
  unfold cpuPen; split_ifs <;> omega

lemma memPen_nonneg (memory : Rat) : 0 ≤ memPen memory := by
  unfold memPen; split_ifs <;> omega

lemma errPen_nonneg (errors : Int) : 0 ≤ errPen errors := by
  unfold errPen; split_ifs <;> omega

lemma errPen_mono {errors errors2 : Int} (h : errors ≤ errors2) :
    errPen errors ≤ errPen errors2 := by
  unfold errPen; split_ifs <;> omega

lemma deficitPen_anti {running running2 : Int} (desired : Int) (h : running2 ≤ running) :
    deficitPen running desired ≤ deficitPen running2 desired := by
  unfold deficitPen; split_ifs <;> omega

lemma cpuPen_mono {cpu cpu2 : Rat} (h : cpu ≤ cpu2) : cpuPen cpu ≤ cpuPen cpu2 := by
  unfold cpuPen
  split_ifs <;> first | omega | (exfalso; linarith)

lemma memPen_mono {memory memory2 : Rat} (h : memory ≤ memory2) :
    memPen memory ≤ memPen memory2 := by
  unfold memPen
  split_ifs <;> first | omega | (exfalso; linarith)

end Monitor

namespace Phase7

/-- The CPU penalty term of `Phase7Manager.calculate_health_score`. -/
def cpuPen (cpu_avg : Rat) : Int :=
  if cpu_avg > performance_thresholds.cpu_critical then 30
  else if cpu_avg > performance_thresholds.cpu_warning then 15
  else 0

/-- The memory penalty term of `Phase7Manager.calculate_health_score`. -/
def memPen (memory_avg : Rat) : Int :=
  if memory_avg > performance_thresholds.memory_critical then 30
  else if memory_avg > performance_thresholds.memory_warning then 15
  else 0

lemma manager_score_decomp (metrics : Metrics) :
    calculate_health_score metrics =
      max 0 (100 - (if metrics.status ≠ "ACTIVE" then 40 else 0) -
        (if metrics.running_tasks < metrics.desired_tasks then 20 else 0) -
        cpuPen metrics.cpu_avg - memPen metrics.memory_avg) := by
  simp only [calculate_health_score, cpuPen, memPen]
  split_ifs <;> omega

lemma manager_cpuPen_nonneg (cpu_avg : Rat) : 0 ≤ cpuPen cpu_avg := by
  unfold cpuPen; split_ifs <;> omega

lemma manager_memPen_nonneg (memory_avg : Rat) : 0 ≤ memPen memory_avg := by
  unfold memPen; split_ifs <;> omega

end Phase7

/-- C1: for every combination of raw-signal inputs — status string, running
and desired task counts, CPU and memory percent (including out-of-range
values), error count — the health score returned by `calculate_health_score`
is in [0, 100], in both the monitoring variant and the manager variant. -/
theorem c1_health_score_in_unit_range :
    ∀ (status : String) (running desired : Int) (cpu memory : Rat) (errors : Int)
      (metrics : Phase7.Metrics),
      (0 ≤ Monitor.calculate_health_score status running desired cpu memory errors ∧
        Monitor.calculate_health_score status running desired cpu memory errors ≤ 100) ∧
      (0 ≤ Phase7.calculate_health_score metrics ∧
        Phase7.calculate_health_score metrics ≤ 100) := by
  intro status running desired cpu memory errors metrics
  rw [Monitor.calculate_health_score_decomp, Phase7.manager_score_decomp]
  have h1 := Monitor.statusPen_nonneg status
  have h2 := Monitor.deficitPen_nonneg running desired
  have h3 := Monitor.cpuPen_nonneg cpu
  have h4 := Monitor.memPen_nonneg memory
  have h5 := Monitor.errPen_nonneg errors
  have h6 := Phase7.manager_cpuPen_nonneg metrics.cpu_avg
  have h7 := Phase7.manager_memPen_nonneg metrics.memory_avg
  constructor
  · constructor
    · exact le_max_left 0 _
    · have := Monitor.statusPen_nonneg status
      refine max_le (by omega) (by omega)
  · constructor
    · exact le_max_left 0 _
    · refine max_le (by omega) (by split_ifs <;> omega)

/-- C7: the two scorer variants apply divergent penalty tables — for a
non-ACTIVE status the monitoring variant subtracts 30 while the manager
variant subtracts 40, and for running < desired the monitoring variant
subtracts 20 × (desired − running) while the manager variant subtracts a
flat 20 regardless of deficit size. -/
theorem c7_divergent_penalty_tables :
    ∀ (status : String) (running desired : Int) (cpu memory : Rat) (errors : Int)
      (metrics : Phase7.Metrics),
      Monitor.calculate_health_score status running desired cpu memory errors =
        max 0 (100 - (if status ≠ "ACTIVE" then 30 else 0) -
          (if running < desired then 20 * (desired - running) else 0) -
          Monitor.cpuPen cpu - Monitor.memPen memory - Monitor.errPen errors) ∧
      Phase7.calculate_health_score metrics =
        max 0 (100 - (if metrics.status ≠ "ACTIVE" then 40 else 0) -
          (if metrics.running_tasks < metrics.desired_tasks then 20 else 0) -
          Phase7.cpuPen metrics.cpu_avg - Phase7.memPen metrics.memory_avg) := by
  intro status running desired cpu memory errors metrics
  constructor
  · rw [Monitor.calculate_health_score_decomp]
    simp only [Monitor.statusPen, Monitor.deficitPen]
  · exact Phase7.manager_score_decomp metrics

/-- C4: the monitoring-variant score is monotone in each penalty axis —
holding all other inputs fixed, increasing the error count, decreasing the
running-task count (desired fixed), or increasing CPU or memory utilization
never yields a strictly greater health score. -/
theorem c4_monitor_score_monotone :
    ∀ (status : String) (running desired : Int) (cpu memory : Rat) (errors : Int),
      (∀ errors2, errors ≤ errors2 →
        Monitor.calculate_health_score status running desired cpu memory errors2 ≤
          Monitor.calculate_health_score status running desired cpu memory errors) ∧
      (∀ running2, running2 ≤ running →
        Monitor.calculate_health_score status running2 desired cpu memory errors ≤
          Monitor.calculate_health_score status running desired cpu memory errors) ∧
      (∀ cpu2, cpu ≤ cpu2 →
        Monitor.calculate_health_score status running desired cpu2 memory errors ≤
          Monitor.calculate_health_score status running desired cpu memory errors) ∧
      (∀ memory2, memory ≤ memory2 →
        Monitor.calculate_health_score status running desired cpu memory2 errors ≤
          Monitor.calculate_health_score status running desired cpu memory errors) := by
  intro status running desired cpu memory errors
  refine ⟨?_, ?_, ?_, ?_⟩ <;> intro x hx <;>
    rw [Monitor.calculate_health_score_decomp, Monitor.calculate_health_score_decomp]
  · have h := Monitor.errPen_mono hx
    omega
  · have h := Monitor.deficitPen_anti desired hx
    omega
  · have h := Monitor.cpuPen_mono hx
    omega
  · have h := Monitor.memPen_mono hx
    omega

/-- Witness for C4 at concrete inputs: raising errors 0 → 7, lowering
running 2 → 1, raising CPU 50 → 90, raising memory 50 → 90 each leave the
score no greater than at the base point (ACTIVE, 2/2, 50, 50, 0). -/
theorem c4_monitor_score_monotone_witness :
    Monitor.calculate_health_score "ACTIVE" 2 2 50 50 7 ≤
      Monitor.calculate_health_score "ACTIVE" 2 2 50 50 0 ∧
    Monitor.calculate_health_score "ACTIVE" 1 2 50 50 0 ≤
      Monitor.calculate_health_score "ACTIVE" 2 2 50 50 0 ∧
    Monitor.calculate_health_score "ACTIVE" 2 2 90 50 0 ≤
      Monitor.calculate_health_score "ACTIVE" 2 2 50 50 0 ∧
    Monitor.calculate_health_score "ACTIVE" 2 2 50 90 0 ≤
      Monitor.calculate_health_score "ACTIVE" 2 2 50 50 0 :=
  ⟨(c4_monitor_score_monotone "ACTIVE" 2 2 50 50 0).1 7 (by norm_num),
   (c4_monitor_score_monotone "ACTIVE" 2 2 50 50 0).2.1 1 (by norm_num),
   (c4_monitor_score_monotone "ACTIVE" 2 2 50 50 0).2.2.1 90 (by norm_num),
   (c4_monitor_score_monotone "ACTIVE" 2 2 50 50 0).2.2.2 90 (by norm_num)⟩

namespace Monitor

lemma bands_partition (l : List ServiceHealth) :
    (l.filter (fun s => decide (s.health_score ≥ 80))).length +
      (l.filter (fun s => decide (60 ≤ s.health_score ∧ s.health_score < 80))).length +
      (l.filter (fun s => decide (s.health_score < 60))).length = l.length := by
  induction l with
  | nil => rfl
  | cons a t ih =>
    simp only [List.filter_cons]
    by_cases h1 : a.health_score ≥ 80 <;>
      by_cases h2 : 60 ≤ a.health_score ∧ a.health_score < 80 <;>
      by_cases h3 : a.health_score < 60 <;>
      simp [h1, h2, h3] at ih ⊢ <;>
      omega

end Monitor

/-- C5: for every poll environment, the three summary counts computed with
the fixed bands (score ≥ 80 healthy, 60 ≤ score < 80 warning, score < 60
critical) partition the report's service list — healthy + warning + critical
equals the total number of services — and every conceivable `ServiceHealth`
value satisfies exactly one of the three band predicates, so no service is
counted in two bands. -/
theorem c5_summary_bands_partition :
    ∀ (env : Monitor.Env),
      ((Monitor.generate_report env).summary.healthy_services +
        (Monitor.generate_report env).summary.warning_services +
        (Monitor.generate_report env).summary.critical_services =
        (Monitor.generate_report env).summary.total_services ∧
       (Monitor.generate_report env).summary.total_services =
        (Monitor.generate_report env).services_health.length) ∧
      ∀ (s : Monitor.ServiceHealth),
        (decide (s.health_score ≥ 80)).toNat +
          (decide (60 ≤ s.health_score ∧ s.health_score < 80)).toNat +
          (decide (s.health_score < 60)).toNat = 1 := by
  intro env
  constructor
  · constructor
    · simp only [Monitor.generate_report]
      rw [Monitor.bands_partition]
      simp [Monitor.services]
    · simp [Monitor.generate_report, Monitor.services]
  · intro s
    by_cases h1 : s.health_score ≥ 80 <;>
      by_cases h2 : 60 ≤ s.health_score ∧ s.health_score < 80 <;>
      by_cases h3 : s.health_score < 60 <;>
      simp [h1, h2, h3] <;>
      omega

/-- C3: in every poll cycle the overall health score is the arithmetic mean
of exactly `len(services)` per-service scores, rounded to 2 decimals; a
service whose fetch fails or is not found still contributes a score-0
`ServiceHealth` to the list rather than being dropped from the denominator. -/
theorem c3_overall_mean_over_all_services :
    ∀ (env : Monitor.Env),
      ((Monitor.generate_report env).services_health.length =
        Monitor.services.length ∧
       (Monitor.generate_report env).overall_health_score =
        round2 ((((Monitor.generate_report env).services_health.map
            (fun s => (s.health_score : Rat))).sum) /
          (Monitor.services.length : Rat))) ∧
      (∀ (name e : String), env.describe_services name = .error e →
        (Monitor.get_service_health env name).health_score = 0) ∧
      (∀ (name : String), env.describe_services name = .ok [] →
        (Monitor.get_service_health env name).health_score = 0) := by
  intro env
  refine ⟨⟨?_, ?_⟩, ?_, ?_⟩
  · simp [Monitor.generate_report]
  · simp [Monitor.generate_report]
  · intro name e h
    simp [Monitor.get_service_health, h]
  · intro name h
    simp [Monitor.get_service_health, h]

/-- An environment where `describe_services` raises for every service except
`user-service`, for which it returns an empty service list. -/
def envFail : Monitor.Env :=
  { describe_services := fun name =>
      if name = "user-service" then .ok [] else .error "boom"
    cpu_datapoints := fun _ => .ok []
    memory_datapoints := fun _ => .ok []
    error_events := fun _ => .ok 0 }

/-- Witness for C3 under `envFail`: the report still carries one entry per
configured service, its overall score is the rounded mean over all five, and
both an erroring and a not-found service score 0. -/
theorem c3_overall_mean_over_all_services_witness :
    ((Monitor.generate_report envFail).services_health.length =
      Monitor.services.length ∧
     (Monitor.generate_report envFail).overall_health_score =
      round2 ((((Monitor.generate_report envFail).services_health.map
          (fun s => (s.health_score : Rat))).sum) /
        (Monitor.services.length : Rat))) ∧
    (Monitor.get_service_health envFail "api-gateway").health_score = 0 ∧
    (Monitor.get_service_health envFail "user-service").health_score = 0 :=
  ⟨(c3_overall_mean_over_all_services envFail).1,
   (c3_overall_mean_over_all_services envFail).2.1 "api-gateway" "boom" rfl,
   (c3_overall_mean_over_all_services envFail).2.2 "user-service" rfl⟩

/-- C8: `get_service_health` returns a `ServiceHealth` for every service
name and environment (it is a total function of the modelled call
outcomes): an empty `services` response yields status NOT_FOUND with health
score 0, and an exception from the orchestration call yields status ERROR
with health score 0, so a report is produced even under partial dependency
failure. -/
theorem c8_get_service_health_degrades :
    ∀ (env : Monitor.Env) (name : String),
      (env.describe_services name = .ok [] →
        (Monitor.get_service_health env name).status = "NOT_FOUND" ∧
        (Monitor.get_service_health env name).health_score = 0) ∧
      (∀ (e : String), env.describe_services name = .error e →
        (Monitor.get_service_health env name).status = "ERROR" ∧
        (Monitor.get_service_health env name).health_score = 0) := by
  intro env name
  constructor
  · intro h
    simp [Monitor.get_service_health, h]
  · intro e h
    simp [Monitor.get_service_health, h]

/-- Witness for C8 under `envFail`: `user-service` (empty response) comes
back NOT_FOUND with score 0 and `order-service` (raised exception) comes
back ERROR with score 0. -/
theorem c8_get_service_health_degrades_witness :
    ((Monitor.get_service_health envFail "user-service").status = "NOT_FOUND" ∧
     (Monitor.get_service_health envFail "user-service").health_score = 0) ∧
    ((Monitor.get_service_health envFail "order-service").status = "ERROR" ∧
     (Monitor.get_service_health envFail "order-service").health_score = 0) :=
  ⟨(c8_get_service_health_degrades envFail "user-service").1 rfl,
   (c8_get_service_health_degrades envFail "order-service").2 "boom" rfl⟩

/-- An environment realising spec scenario 4: every service is ACTIVE with
one running task, no metrics and no log errors, and desired counts 1–5 in
configuration order, so the per-service scores come out 100, 80, 60, 40, 20. -/
def envScenario4 : Monitor.Env :=
  { describe_services := fun name =>
      .ok [{ status := "ACTIVE", runningCount := 1,
             desiredCount :=
               if name = "api-gateway" then 1
               else if name = "user-service" then 2
               else if name = "product-service" then 3
               else if name = "order-service" then 4
               else 5,
             deployments := [] }]
    cpu_datapoints := fun _ => .ok []
    memory_datapoints := fun _ => .ok []
    error_events := fun _ => .ok 0 }

/-- Counterexample to C2: with per-service scores exactly 100, 80, 60, 40,
20 the report has healthy_services = 2 and critical_services = 2 (the
service scoring exactly 80 falls in the ≥ 80 healthy band), not the claimed
healthy = 1, critical = 3. -/
theorem c2_scenario4_counterexample :
    ((Monitor.generate_report envScenario4).services_health.map
        (fun s => s.health_score)) = [100, 80, 60, 40, 20] ∧
    (Monitor.generate_report envScenario4).summary.healthy_services = 2 ∧
    (Monitor.generate_report envScenario4).summary.critical_services = 2 ∧
    ¬((Monitor.generate_report envScenario4).summary.healthy_services = 1 ∧
      (Monitor.generate_report envScenario4).summary.warning_services = 1 ∧
      (Monitor.generate_report envScenario4).summary.critical_services = 3) := by
  decide

/-- C2 (amended): for five services whose per-service scores are 100, 80,
60, 40 and 20, the report has overall_health_score = 60.0,
healthy_services = 2, warning_services = 1 and critical_services = 2, with
the boundary service scoring exactly 60 counted in the warning band, not the
critical band. -/
theorem c2_scenario4_amended :
    ((Monitor.generate_report envScenario4).services_health.map
        (fun s => s.health_score)) = [100, 80, 60, 40, 20] ∧
    (Monitor.generate_report envScenario4).overall_health_score = 60 ∧
    (Monitor.generate_report envScenario4).summary.healthy_services = 2 ∧
    (Monitor.generate_report envScenario4).summary.warning_services = 1 ∧
    (Monitor.generate_report envScenario4).summary.critical_services = 2 ∧
    ((Monitor.generate_report envScenario4).services_health.filter
        (fun s => decide (60 ≤ s.health_score ∧ s.health_score < 80))).map
      (fun s => s.service_name) = ["product-service"] := by
  refine ⟨by decide, ?_, by decide, by decide, by decide, by decide⟩
  simp +decide [Monitor.generate_report, Monitor.services, Monitor.get_service_health,
    envScenario4, Monitor.get_service_cpu_utilization,
    Monitor.get_service_memory_utilization, Monitor.get_service_error_count,
    Monitor.calculate_health_score]
  norm_num [round2, Rat.floor]

/-- An environment whose CPU metric response for every service holds two
datapoints with averages 10 and 30, and whose memory response holds two
datapoints with averages 20 and 40. -/
def envTwoDatapoints : Monitor.Env :=
  { describe_services := fun _ =>
      .ok [{ status := "ACTIVE", runningCount := 1, desiredCount := 1,
             deployments := [] }]
    cpu_datapoints := fun _ => .ok [10, 30]
    memory_datapoints := fun _ => .ok [20, 40]
    error_events := fun _ => .ok 0 }

/-- Counterexample to C6: with two sampled CPU datapoints averaging 10 and
30 in the window, the monitoring adapter returns 30 (the last datapoint's
statistic), not the cross-datapoint arithmetic average 20. -/
theorem c6_last_datapoint_counterexample :
    Monitor.get_service_cpu_utilization envTwoDatapoints "api-gateway" = 30 ∧
    ((10 : Rat) + 30) / 2 = 20 ∧
    Monitor.get_service_cpu_utilization envTwoDatapoints "api-gateway" ≠
      ((10 : Rat) + 30) / 2 := by
  have h1 : Monitor.get_service_cpu_utilization envTwoDatapoints "api-gateway" = 30 := by
    simp [Monitor.get_service_cpu_utilization, envTwoDatapoints]
    norm_num [round2, Rat.floor]
  have h2 : ((10 : Rat) + 30) / 2 = 20 := by norm_num
  refine ⟨h1, h2, ?_⟩
  rw [h1, h2]
  norm_num

/-- C6 (amended): the manager's `get_service_metrics` returns the arithmetic
average of the named metric across all sampled datapoints in the lookback
window, while the monitoring adapter (`get_service_cpu_utilization` /
`get_service_memory_utilization`) returns the most recent (last) datapoint's
average statistic instead of the cross-datapoint mean; both return 0.0 (not
an error) when the metrics API returns zero datapoints. -/
theorem c6_metric_adapters_amended :
    ∀ (env : Monitor.Env) (p7env : Phase7.P7Env) (name : String),
      (env.cpu_datapoints name = .ok [] →
        Monitor.get_service_cpu_utilization env name = 0) ∧
      (∀ (dps : List Rat) (v : Rat), env.cpu_datapoints name = .ok dps →
        dps.getLast? = some v →
        Monitor.get_service_cpu_utilization env name = round2 v) ∧
      (env.memory_datapoints name = .ok [] →
        Monitor.get_service_memory_utilization env name = 0) ∧
      (∀ (dps : List Rat) (v : Rat), env.memory_datapoints name = .ok dps →
        dps.getLast? = some v →
        Monitor.get_service_memory_utilization env name = round2 v) ∧
      (∀ (svcs : List Monitor.ServiceInfo),
        p7env.describe_services name = .ok svcs →
        p7env.cpu_statistics name = .ok [] →
        (Phase7.get_service_metrics p7env name).cpu_avg = 0) ∧
      (∀ (svcs : List Monitor.ServiceInfo) (dps : List Phase7.Datapoint),
        p7env.describe_services name = .ok svcs →
        p7env.cpu_statistics name = .ok dps → dps ≠ [] →
        (Phase7.get_service_metrics p7env name).cpu_avg =
          round2 ((dps.map Phase7.Datapoint.Average).sum / (dps.length : Rat))) ∧
      (∀ (svcs : List Monitor.ServiceInfo) (cdps : List Phase7.Datapoint),
        p7env.describe_services name = .ok svcs →
        p7env.cpu_statistics name = .ok cdps →
        p7env.memory_statistics name = .ok [] →
        (Phase7.get_service_metrics p7env name).memory_avg = 0) ∧
      (∀ (svcs : List Monitor.ServiceInfo) (cdps mdps : List Phase7.Datapoint),
        p7env.describe_services name = .ok svcs →
        p7env.cpu_statistics name = .ok cdps →
        p7env.memory_statistics name = .ok mdps → mdps ≠ [] →
        (Phase7.get_service_metrics p7env name).memory_avg =
          round2 ((mdps.map Phase7.Datapoint.Average).sum / (mdps.length : Rat))) := by
  intro env p7env name
  refine ⟨?_, ?_, ?_, ?_, ?_, ?_, ?_, ?_⟩
  · intro h
    simp [Monitor.get_service_cpu_utilization, h]
  · intro dps v h hlast
    simp [Monitor.get_service_cpu_utilization, h, hlast]
  · intro h
    simp [Monitor.get_service_memory_utilization, h]
  · intro dps v h hlast
    simp [Monitor.get_service_memory_utilization, h, hlast]
  · intro svcs hdesc hcpu
    rcases svcs with _ | ⟨si, rest⟩ <;>
      rcases hm : p7env.memory_statistics name with e | (_ | ⟨m, ms⟩) <;>
        simp [Phase7.get_service_metrics, hdesc, hcpu, hm]
  · intro svcs dps hdesc hcpu hne
    rcases dps with _ | ⟨d, ds⟩
    · simp at hne
    · rcases svcs with _ | ⟨si, rest⟩ <;>
        rcases hm : p7env.memory_statistics name with e | (_ | ⟨m, ms⟩) <;>
          simp [Phase7.get_service_metrics, hdesc, hcpu, hm]
  · intro svcs cdps hdesc hcpu hmem
    rcases svcs with _ | ⟨si, rest⟩ <;>
      rcases cdps with _ | ⟨c, cs⟩ <;>
        simp [Phase7.get_service_metrics, hdesc, hcpu, hmem]
  · intro svcs cdps mdps hdesc hcpu hmem hne
    rcases mdps with _ | ⟨m, ms⟩
    · simp at hne
    · rcases svcs with _ | ⟨si, rest⟩ <;>
        rcases cdps with _ | ⟨c, cs⟩ <;>
          simp [Phase7.get_service_metrics, hdesc, hcpu, hmem]

/-- A manager environment where every external call succeeds but the
orchestration API knows no services and the metric responses are empty. -/
def p7envEmpty : Phase7.P7Env :=
  { describe_services := fun _ => .ok []
    cpu_statistics := fun _ => .ok []
    memory_statistics := fun _ => .ok [] }

/-- A manager environment with one ACTIVE fully-provisioned service, two CPU
datapoints (averages 10 and 30) and two memory datapoints (averages 20
and 40). -/
def p7envTwoDatapoints : Phase7.P7Env :=
  { describe_services := fun _ =>
      .ok [{ status := "ACTIVE", runningCount := 1, desiredCount := 1,
             deployments := [] }]
    cpu_statistics := fun _ =>
      .ok [{ Average := 10, Maximum := 12 }, { Average := 30, Maximum := 31 }]
    memory_statistics := fun _ =>
      .ok [{ Average := 20, Maximum := 22 }, { Average := 40, Maximum := 44 }] }

/-- Witness for the amended C6 at concrete environments: empty datapoint
lists give 0 in both variants, the monitoring adapter gives the last
datapoint's rounded value, and the manager averages across datapoints. -/
theorem c6_metric_adapters_amended_witness :
    Monitor.get_service_cpu_utilization envFail "api-gateway" = 0 ∧
    Monitor.get_service_cpu_utilization envTwoDatapoints "api-gateway" = round2 30 ∧
    Monitor.get_service_memory_utilization envFail "api-gateway" = 0 ∧
    Monitor.get_service_memory_utilization envTwoDatapoints "api-gateway" = round2 40 ∧
    (Phase7.get_service_metrics p7envEmpty "api-gateway").cpu_avg = 0 ∧
    (Phase7.get_service_metrics p7envTwoDatapoints "api-gateway").cpu_avg =
      round2 ((([({ Average := 10, Maximum := 12 } : Phase7.Datapoint),
          { Average := 30, Maximum := 31 }].map Phase7.Datapoint.Average).sum) /
        (([({ Average := 10, Maximum := 12 } : Phase7.Datapoint),
          { Average := 30, Maximum := 31 }].length : Nat) : Rat)) ∧
    (Phase7.get_service_metrics p7envEmpty "api-gateway").memory_avg = 0 ∧
    (Phase7.get_service_metrics p7envTwoDatapoints "api-gateway").memory_avg =
      round2 ((([({ Average := 20, Maximum := 22 } : Phase7.Datapoint),
          { Average := 40, Maximum := 44 }].map Phase7.Datapoint.Average).sum) /
        (([({ Average := 20, Maximum := 22 } : Phase7.Datapoint),
          { Average := 40, Maximum := 44 }].length : Nat) : Rat)) :=
  ⟨(c6_metric_adapters_amended envFail p7envEmpty "api-gateway").1 rfl,
   (c6_metric_adapters_amended envTwoDatapoints p7envEmpty "api-gateway").2.1
     [10, 30] 30 rfl rfl,
   (c6_metric_adapters_amended envFail p7envEmpty "api-gateway").2.2.1 rfl,
   (c6_metric_adapters_amended envTwoDatapoints p7envEmpty "api-gateway").2.2.2.1
     [20, 40] 40 rfl rfl,
   (c6_metric_adapters_amended envFail p7envEmpty "api-gateway").2.2.2.2.1
     [] rfl rfl,
   (c6_metric_adapters_amended envFail p7envTwoDatapoints "api-gateway").2.2.2.2.2.1
     [{ status := "ACTIVE", runningCount := 1, desiredCount := 1, deployments := [] }]
     [{ Average := 10, Maximum := 12 }, { Average := 30, Maximum := 31 }]
     rfl rfl (by simp),
   (c6_metric_adapters_amended envFail p7envEmpty "api-gateway").2.2.2.2.2.2.1
     [] [] rfl rfl rfl,
   (c6_metric_adapters_amended envFail p7envTwoDatapoints "api-gateway").2.2.2.2.2.2.2
     [{ status := "ACTIVE", runningCount := 1, desiredCount := 1, deployments := [] }]
     [{ Average := 10, Maximum := 12 }, { Average := 30, Maximum := 31 }]
     [{ Average := 20, Maximum := 22 }, { Average := 40, Maximum := 44 }]
     rfl rfl rfl (by simp)⟩

/-- C9: `update_scaling_targets` validates min < max locally before any
external call: for every pair with min_capacity ≥ max_capacity it returns
without invoking `register_scalable_target`, and only when
min_capacity < max_capacity (and the service name is recognized) does it
call the autoscaling API with exactly those two capacities. -/
theorem c9_update_scaling_targets_validates :
    ∀ (service : String) (min_capacity max_capacity : Int),
      (min_capacity ≥ max_capacity →
        Phase7.update_scaling_targets service min_capacity max_capacity = none) ∧
      (service ∈ Phase7.services → min_capacity < max_capacity →
        Phase7.update_scaling_targets service min_capacity max_capacity =
          some { ResourceId := "service/" ++ Phase7.cluster_name ++ "/" ++
                   Phase7.project_name ++ "-" ++ service,
                 MinCapacity := min_capacity, MaxCapacity := max_capacity }) := by
  intro service min_capacity max_capacity
  constructor
  · intro h
    simp only [Phase7.update_scaling_targets]
    split_ifs <;> rfl
  · intro hmem hlt
    simp only [Phase7.update_scaling_targets]
    split_ifs <;> first | rfl | omega

/-- Witness for C9: min 5 ≥ max 2 issues no call, while min 1 < max 3 for
`api-gateway` issues exactly one registration with capacities 1 and 3. -/
theorem c9_update_scaling_targets_validates_witness :
    Phase7.update_scaling_targets "api-gateway" 5 2 = none ∧
    Phase7.update_scaling_targets "api-gateway" 1 3 =
      some { ResourceId := "service/" ++ Phase7.cluster_name ++ "/" ++
               Phase7.project_name ++ "-" ++ "api-gateway",
             MinCapacity := 1, MaxCapacity := 3 } :=
  ⟨(c9_update_scaling_targets_validates "api-gateway" 5 2).1 (by norm_num),
   (c9_update_scaling_targets_validates "api-gateway" 1 3).2 (by decide) (by norm_num)⟩

/-- C10: in the manager variant, a service absent from the orchestration API
(`describe_services` returns an empty list, metric queries succeed with no
datapoints) keeps the default signals — status `Unknown`, running = desired
= 0, zero utilization — so `calculate_health_score` yields exactly 60: the
only triggered penalty is the 40-point status penalty, and the missing
service lands in the warning (yellow, ≥ 60) band on the dashboard rather
than the critical (red) band. -/
theorem c10_missing_service_scores_60 :
    ∀ (env : Phase7.P7Env) (name : String),
      env.describe_services name = .ok [] →
      env.cpu_statistics name = .ok [] →
      env.memory_statistics name = .ok [] →
      (Phase7.get_service_metrics env name).status = "Unknown" ∧
      (Phase7.get_service_metrics env name).running_tasks = 0 ∧
      (Phase7.get_service_metrics env name).desired_tasks = 0 ∧
      (Phase7.get_service_metrics env name).cpu_avg = 0 ∧
      (Phase7.get_service_metrics env name).memory_avg = 0 ∧
      (Phase7.get_service_metrics env name).health_score = 60 ∧
      Phase7.dashboard_health_color (Phase7.get_service_metrics env name).health_score =
        Phase7.HealthColor.yellow := by
  intro env name h1 h2 h3
  have hm : Phase7.get_service_metrics env name =
      { service := name, status := "Unknown", cpu_avg := 0, cpu_max := 0,
        memory_avg := 0, memory_max := 0, task_count := 0, running_tasks := 0,
        desired_tasks := 0, response_time := 0, error_rate := 0,
        health_score := 60 } := by
    simp [Phase7.get_service_metrics, h1, h2, h3, Phase7.calculate_health_score,
      Phase7.performance_thresholds]
    decide
  rw [hm]
  simp [Phase7.dashboard_health_color]

/-- Witness for C10 at the concrete all-empty environment. -/
theorem c10_missing_service_scores_60_witness :
    (Phase7.get_service_metrics p7envEmpty "user-service").status = "Unknown" ∧
    (Phase7.get_service_metrics p7envEmpty "user-service").running_tasks = 0 ∧
    (Phase7.get_service_metrics p7envEmpty "user-service").desired_tasks = 0 ∧
    (Phase7.get_service_metrics p7envEmpty "user-service").cpu_avg = 0 ∧
    (Phase7.get_service_metrics p7envEmpty "user-service").memory_avg = 0 ∧
    (Phase7.get_service_metrics p7envEmpty "user-service").health_score = 60 ∧
    Phase7.dashboard_health_color
        (Phase7.get_service_metrics p7envEmpty "user-service").health_score =
      Phase7.HealthColor.yellow :=
  c10_missing_service_scores_60 p7envEmpty "user-service" rfl rfl rfl
